import Mathlib

/-!
Verification development for a Rust connection-sharing abstraction
(`stacks-db-abstraction-test`): several logical database modules share one
physical database connection through an `Rc<RefCell<_>>` handle; mutating
work goes through scoped transaction guards.

The Rust source is shallowly embedded below:
  * `DbError` mirrors the error enum in `src/db.rs`.
  * `RcRef` / `RcHeap` model `Rc<RefCell<DB>>` cells: a reference is a cell
    id into an explicit heap, `Rc::clone` returns the same id and touches no
    heap cell.
  * `DbConnectionGuard`, `DbTransactionGuard`, `SQLiteDbImpl`,
    `SQLiteDbTransactionImpl`, `SortitionDbImpl`, `MarfTrieDbImpl` mirror the
    structures of `src/db.rs`, `src/sqlite.rs`, `src/sortdb.rs`,
    `src/marfdb.rs`; the external rusqlite API is a parameter (`NativeApi`).
  * A small step machine (`microStep`, `statesFrom`) gives the runtime
    behaviour of `RefCell` borrows and transaction open/finalize, with the
    micro-event trace of each demo module operation read off its body.
Panics (`expect`, `RefCell` borrow violations) are modelled as `none`.
-/

namespace StacksDb

/-- Error enum from `src/db.rs` (`DbError`): Database, Commit, Rollback,
Transaction, Connection, Other, each carrying a message string. -/
inductive DbError where
  | database (msg : String)
  | commit (msg : String)
  | rollback (msg : String)
  | transaction (msg : String)
  | connection (msg : String)
  | other (msg : String)
deriving DecidableEq, Repr

/-- The constructor kinds of `DbError`, read off the source enum in order. -/
def dbErrorKindNames : List String :=
  ["Database", "Commit", "Rollback", "Transaction", "Connection", "Other"]

/-- Kind tag of a `DbError` value. -/
def DbError.kindName : DbError → String
  | .database _ => "Database"
  | .commit _ => "Commit"
  | .rollback _ => "Rollback"
  | .transaction _ => "Transaction"
  | .connection _ => "Connection"
  | .other _ => "Other"

/-- The traits implemented for `DbTransactionGuard` in `src/db.rs`: `Deref`
and `DbTransaction` (besides the inherent `new`). There is no `Drop` impl. -/
def dbTransactionGuardTraitImpls : List String :=
  ["Deref", "DbTransaction"]

/-- A reference-counted pointer to a `RefCell` cell: `Rc<RefCell<DB>>` is
modelled as the id of its cell in an explicit heap. -/
structure RcRef where
  id : Nat
deriving DecidableEq, Repr

/-- The heap of `Rc<RefCell<DB>>` allocations; cell `i` holds `cells[i]`. -/
structure RcHeap (DB : Type) where
  cells : List DB

/-- `Rc::clone`: returns a pointer to the same allocation; no heap change. -/
def RcRef.clone (r : RcRef) : RcRef := r

/-- `DbConnectionGuard` from `src/db.rs`: wraps the connection in an
`Rc<RefCell<DB>>` (here: a reference into an `RcHeap DB`). -/
structure DbConnectionGuard (DB : Type) where
  db : RcRef

/-- `DbConnectionGuard::new`: `Rc::new(RefCell::new(db))` allocates one fresh
cell holding `db` and wraps the pointer. -/
def DbConnectionGuard.new (v : DB) (h : RcHeap DB) :
    DbConnectionGuard DB × RcHeap DB :=
  ({ db := { id := h.cells.length } }, { cells := h.cells ++ [v] })

/-- `DbTransactionGuard` from `src/db.rs`: wraps an inner transaction value
(the `PhantomData` field has no runtime content and is omitted). -/
structure DbTransactionGuard (T : Type) where
  tx : T

/-- `DbTransactionGuard::new`. -/
def DbTransactionGuard.new (tx : T) : DbTransactionGuard T := { tx := tx }

/-- `Deref for DbTransactionGuard`: yields the wrapped transaction. -/
def DbTransactionGuard.deref (self : DbTransactionGuard T) : T := self.tx

/-- The commit/rollback operations of an inner transaction type, standing for
the `DbTransaction` trait of `src/db.rs`. -/
structure TxOps (T : Type) where
  commit : T → Except DbError Unit
  rollback : T → Except DbError Unit

/-- `DbTransaction for DbTransactionGuard`, `commit`: `self.tx.commit()`. -/
def DbTransactionGuard.commit (ops : TxOps T) (self : DbTransactionGuard T) :
    Except DbError Unit :=
  ops.commit self.tx

/-- `DbTransaction for DbTransactionGuard`, `rollback`: `self.tx.rollback()`. -/
def DbTransactionGuard.rollback (ops : TxOps T) (self : DbTransactionGuard T) :
    Except DbError Unit :=
  ops.rollback self.tx

/-- The spec's reading of the guard: committing through the guard is exactly
the wrapped transaction's commit, applied to the dereferenced guard. -/
def specGuardCommit (ops : TxOps T) (g : DbTransactionGuard T) :
    Except DbError Unit :=
  ops.commit (DbTransactionGuard.deref g)

/-- The spec's reading of the guard: rolling back through the guard is exactly
the wrapped transaction's rollback, applied to the dereferenced guard. -/
def specGuardRollback (ops : TxOps T) (g : DbTransactionGuard T) :
    Except DbError Unit :=
  ops.rollback (DbTransactionGuard.deref g)

/-- The rusqlite surface used by `src/sqlite.rs`, as a parameter: opening a
native connection, beginning a native transaction, committing and rolling
back one. Native failures carry their `to_string()` message. -/
structure NativeApi (Conn Tx : Type) where
  openConn : String → Except String Conn
  beginTx : Conn → Except String Tx
  commitTx : Tx → Except String Unit
  rollbackTx : Tx → Except String Unit

/-- `SQLiteDbParams` from `src/sqlite.rs`. -/
structure SQLiteDbParams where
  uri : String
deriving DecidableEq, Repr

/-- `SQLiteDbImpl` from `src/sqlite.rs`: stores the params and the native
connection. -/
structure SQLiteDbImpl (Conn : Type) where
  params : SQLiteDbParams
  conn : Conn

/-- `SQLiteDbImpl::establish` from `src/sqlite.rs`: opens the native
connection (mapping a failure `e` to `DbError::Connection(e.to_string())`),
builds the impl from the params and the fresh connection, and wraps it via
`DbConnectionGuard::new` (one fresh heap cell). -/
def SQLiteDbImpl.establish (api : NativeApi Conn Tx) (params : SQLiteDbParams)
    (heap : RcHeap (SQLiteDbImpl Conn)) :
    Except DbError (DbConnectionGuard (SQLiteDbImpl Conn)) ×
      RcHeap (SQLiteDbImpl Conn) :=
  match api.openConn params.uri with
  | Except.error e => (Except.error (DbError.connection e), heap)
  | Except.ok conn =>
      let db : SQLiteDbImpl Conn := { params := params, conn := conn }
      let g := DbConnectionGuard.new db heap
      (Except.ok g.1, g.2)

/-- `SQLiteDbTransactionImpl` from `src/sqlite.rs`: wraps the native
transaction. -/
structure SQLiteDbTransactionImpl (Tx : Type) where
  tx : Tx

/-- `SQLiteDbImpl::transaction` from `src/sqlite.rs`. The source calls
`self.conn.transaction().expect("failed to begin transaction")`: a native
begin failure is a panic, modelled as `none`; on success the native
transaction is wrapped and returned as `Ok(DbTransactionGuard::new(tx))`. -/
def SQLiteDbImpl.transaction (api : NativeApi Conn Tx)
    (self : SQLiteDbImpl Conn) :
    Option (Except DbError (DbTransactionGuard (SQLiteDbTransactionImpl Tx))) :=
  match api.beginTx self.conn with
  | Except.error _ => none
  | Except.ok t => some (Except.ok (DbTransactionGuard.new { tx := t }))

/-- `DbTransaction for SQLiteDbTransactionImpl`, `commit`: delegates to the
native commit, mapping a failure `e` to `DbError::Commit(e.to_string())`. -/
def SQLiteDbTransactionImpl.commit (api : NativeApi Conn Tx)
    (self : SQLiteDbTransactionImpl Tx) : Except DbError Unit :=
  match api.commitTx self.tx with
  | Except.ok u => Except.ok u
  | Except.error e => Except.error (DbError.commit e)

/-- `DbTransaction for SQLiteDbTransactionImpl`, `rollback`: delegates to the
native rollback, mapping a failure `e` to `DbError::Rollback(e.to_string())`. -/
def SQLiteDbTransactionImpl.rollback (api : NativeApi Conn Tx)
    (self : SQLiteDbTransactionImpl Tx) : Except DbError Unit :=
  match api.rollbackTx self.tx with
  | Except.ok u => Except.ok u
  | Except.error e => Except.error (DbError.rollback e)

/-- `SortitionDbImpl` from `src/sortdb.rs`: holds `conn: Rc<RefCell<DB>>`. -/
structure SortitionDbImpl (DB : Type) where
  conn : RcRef

/-- `SortitionDbImpl::from_db` from `src/sortdb.rs`:
`Ok(Self { conn: Rc::clone(db) })`. The body performs no heap operation, so
the heap is passed through unchanged. -/
def SortitionDbImpl.from_db (db : DbConnectionGuard DB) (heap : RcHeap DB) :
    Except DbError (SortitionDbImpl DB) × RcHeap DB :=
  (Except.ok { conn := RcRef.clone db.db }, heap)

/-- `MarfTrieDbImpl` from `src/marfdb.rs`: holds `conn: Rc<RefCell<DB>>`. -/
structure MarfTrieDbImpl (DB : Type) where
  conn : RcRef

/-- `MarfTrieDbImpl::from_db` from `src/marfdb.rs`:
`Ok(Self { conn: db.db.clone() })`. The body performs no heap operation, so
the heap is passed through unchanged. -/
def MarfTrieDbImpl.from_db (db : DbConnectionGuard DB) (heap : RcHeap DB) :
    Except DbError (MarfTrieDbImpl DB) × RcHeap DB :=
  (Except.ok { conn := RcRef.clone db.db }, heap)

/-- Borrow state of the `RefCell` inside the shared handle. -/
inductive BorrowState where
  | free
  | mutBorrowed
deriving DecidableEq, Repr

/-- `RefCell::borrow_mut`: succeeds only when no borrow is outstanding; an
outstanding borrow makes it panic immediately (`none`), it never queues. -/
def borrowMut : BorrowState → Option BorrowState
  | .free => some BorrowState.mutBorrowed
  | .mutBorrowed => none

/-- Runtime state of one shared connection: the `RefCell` borrow flag and the
number of transactions currently open on the native connection. -/
structure ConnState where
  borrow : BorrowState
  openTx : Nat
deriving DecidableEq, Repr

/-- The state of a freshly established connection: not borrowed, no open
transaction. -/
def initConn : ConnState := { borrow := BorrowState.free, openTx := 0 }

/-- Primitive runtime events performed by the module operation bodies:
`self.conn.borrow_mut()`, `conn.transaction()`, `tx.commit()`, and the drop
of the `RefMut` at the end of the enclosing scope. -/
inductive MicroEvent where
  | borrowMutEv
  | beginTx
  | commitTx
  | releaseBorrow
deriving DecidableEq, Repr

/-- Small-step semantics of one primitive event on the connection state.
`none` is a panic (a `RefCell` borrow violation, a begin without the
exclusive borrow, or a finalize with no open transaction). -/
def microStep (s : ConnState) : MicroEvent → Option ConnState
  | .borrowMutEv =>
      match borrowMut s.borrow with
      | some b => some { s with borrow := b }
      | none => none
  | .beginTx =>
      match s.borrow with
      | .mutBorrowed => some { s with openTx := s.openTx + 1 }
      | .free => none
  | .commitTx =>
      match s.openTx with
      | 0 => none
      | n + 1 => some { s with openTx := n }
  | .releaseBorrow =>
      match s.borrow with
      | .mutBorrowed => some { s with borrow := BorrowState.free }
      | .free => none

/-- All states visited while executing a list of events from `s`, the start
state included; a panic stops the execution. -/
def statesFrom (s : ConnState) : List MicroEvent → List ConnState
  | [] => [s]
  | e :: rest =>
      match microStep s e with
      | some s2 => s :: statesFrom s2 rest
      | none => [s]

/-- Final state after executing a list of events from `s`; `none` on panic. -/
def runFrom (s : ConnState) : List MicroEvent → Option ConnState
  | [] => some s
  | e :: rest =>
      match microStep s e with
      | some s2 => runFrom s2 rest
      | none => none

/-- The demo module operations of `src/sortdb.rs` and `src/marfdb.rs`. -/
inductive ModuleOp where
  | sortDoSomeMutThing
  | sortDoSomeImmutThing
  | marfDoSomethingElseImmut
  | marfDoSomethingMut
deriving DecidableEq, Repr

/-- Event trace of a body that borrows the connection mutably, begins a
transaction, commits it, and releases the borrow on scope exit. -/
def txCallEvents : List MicroEvent :=
  [MicroEvent.borrowMutEv, MicroEvent.beginTx, MicroEvent.commitTx,
    MicroEvent.releaseBorrow]

/-- Micro-event trace of each module operation, read off its body:
`do_some_mut_thing` and `do_something_else_immut` each do
`borrow_mut`; `transaction`; `commit`; drop of the borrow, while
`do_some_immut_thing` and `do_something_mut` only print. -/
def opEvents : ModuleOp → List MicroEvent
  | .sortDoSomeMutThing => txCallEvents
  | .sortDoSomeImmutThing => []
  | .marfDoSomethingElseImmut => txCallEvents
  | .marfDoSomethingMut => []

/-- Lifecycle states of one transaction guard. -/
inductive TxStatus where
  | opened
  | committed
  | rolledBack
deriving DecidableEq, Repr

/-- Finalize actions on a transaction guard. -/
inductive TxFinalize where
  | commitAct
  | rollbackAct
deriving DecidableEq, Repr

/-- Lifecycle step of a transaction guard. `commit(self)` and
`rollback(self)` take the guard by value, so a finalize step exists only
from the `opened` state; the terminal states admit no step at all — the
guard has been consumed. -/
def txFinalStep : TxStatus → TxFinalize → Option TxStatus
  | .opened, .commitAct => some TxStatus.committed
  | .opened, .rollbackAct => some TxStatus.rolledBack
  | .committed, _ => none
  | .rolledBack, _ => none

/-- Modelled from the spec: the committed state of the native SQLite database
(rusqlite is an external crate, its code is not in `src/`). `data` is the
committed content as an append log of key-value rows; `txOpen` records
whether a native transaction is currently open on the connection. -/
structure NativeConnSt where
  data : List (String × Nat)
  txOpen : Bool
deriving DecidableEq, Repr

/-- Modelled from the spec: an open native transaction buffers its writes
until commit. -/
structure NativeTxSt where
  pending : List (String × Nat)
deriving DecidableEq, Repr

/-- Modelled from the spec: beginning a native transaction fails while one is
already open, and otherwise opens an empty write buffer. -/
def nativeBeginM (c : NativeConnSt) : Except String (NativeTxSt × NativeConnSt) :=
  if c.txOpen then Except.error "cannot start a transaction within a transaction"
  else Except.ok ({ pending := [] }, { c with txOpen := true })

/-- Modelled from the spec: a mutation inside a native transaction is buffered
in the transaction, not yet committed. -/
def txWriteM (t : NativeTxSt) (k : String) (v : Nat) : NativeTxSt :=
  { pending := t.pending ++ [(k, v)] }

/-- Modelled from the spec: committing a native transaction appends its
buffered writes to the committed data and closes the transaction. -/
def nativeCommitM (t : NativeTxSt) (c : NativeConnSt) : NativeConnSt :=
  { data := c.data ++ t.pending, txOpen := false }

/-- Modelled from the spec: rolling back a native transaction discards its
buffered writes and closes the transaction, leaving the committed data
untouched. -/
def nativeRollbackM (_t : NativeTxSt) (c : NativeConnSt) : NativeConnSt :=
  { data := c.data, txOpen := false }

/-- A concrete `NativeApi` whose begin-transaction always fails (for example,
the native connection is busy): exercises the failure path of
`SQLiteDbImpl::transaction`. -/
def lockedBeginApi : NativeApi Unit Unit where
  openConn := fun _ => Except.ok ()
  beginTx := fun _ => Except.error "database is locked"
  commitTx := fun _ => Except.ok ()
  rollbackTx := fun _ => Except.ok ()

/-- A concrete `NativeApi` whose open always succeeds, returning the uri as
the native connection value. -/
def demoOkApi : NativeApi String Unit where
  openConn := fun u => Except.ok u
  beginTx := fun _ => Except.ok ()
  commitTx := fun _ => Except.ok ()
  rollbackTx := fun _ => Except.ok ()

/-- A concrete `NativeApi` whose open always fails with a message naming the
offending path, as SQLite does on a malformed path. -/
def badPathApi : NativeApi String Unit where
  openConn := fun u => Except.error ("unable to open database file: " ++ u)
  beginTx := fun _ => Except.ok ()
  commitTx := fun _ => Except.ok ()
  rollbackTx := fun _ => Except.ok ()

/-- Unfolding of `statesFrom` over one transactional module-operation body
started from the idle connection: the borrow is taken, one transaction opens
and commits, the borrow is released, and the machine is back at `initConn`
for the remaining events. -/
theorem statesFrom_txCall_append (tail : List MicroEvent) :
    statesFrom initConn (txCallEvents ++ tail) =
      initConn :: ⟨BorrowState.mutBorrowed, 0⟩ :: ⟨BorrowState.mutBorrowed, 1⟩ ::
        ⟨BorrowState.mutBorrowed, 0⟩ :: statesFrom initConn tail := rfl

/-- C1: for every sequence of module operations performed through one shared
connection handle, every state visited by the connection's runtime machine
has at most one transaction open: a second transaction can only begin after
the first has been finalized and the exclusive borrow released. -/
theorem c1_at_most_one_open_tx (ops : List ModuleOp) (s : ConnState)
    (hs : s ∈ statesFrom initConn ((ops.map opEvents).flatten)) :
    s.openTx ≤ 1 := by
  induction ops generalizing s with
  | nil =>
      simp [statesFrom] at hs
      simp [hs, initConn]
  | cons op ops ih =>
      have hjoin : ((op :: ops).map opEvents).flatten =
          opEvents op ++ (ops.map opEvents).flatten := by
        simp
      rw [hjoin] at hs
      cases op with
      | sortDoSomeMutThing =>
          rw [show opEvents ModuleOp.sortDoSomeMutThing = txCallEvents from rfl,
            statesFrom_txCall_append] at hs
          simp only [List.mem_cons] at hs
          rcases hs with h | h | h | h | h
          · subst h; decide
          · subst h; decide
          · subst h; decide
          · subst h; decide
          · exact ih s h
      | sortDoSomeImmutThing =>
          rw [show opEvents ModuleOp.sortDoSomeImmutThing = [] from rfl,
            List.nil_append] at hs
          exact ih s hs
      | marfDoSomethingElseImmut =>
          rw [show opEvents ModuleOp.marfDoSomethingElseImmut = txCallEvents from rfl,
            statesFrom_txCall_append] at hs
          simp only [List.mem_cons] at hs
          rcases hs with h | h | h | h | h
          · subst h; decide
          · subst h; decide
          · subst h; decide
          · subst h; decide
          · exact ih s h
      | marfDoSomethingMut =>
          rw [show opEvents ModuleOp.marfDoSomethingMut = [] from rfl,
            List.nil_append] at hs
          exact ih s hs

/-- Witness for C1: the run of `do_some_mut_thing` visits the state with one
open transaction, and the invariant bounds it by one. -/
theorem c1_witness :
    ((⟨BorrowState.mutBorrowed, 1⟩ : ConnState) ∈
      statesFrom initConn (([ModuleOp.sortDoSomeMutThing].map opEvents).flatten)) ∧
    (⟨BorrowState.mutBorrowed, 1⟩ : ConnState).openTx ≤ 1 :=
  ⟨by decide,
    c1_at_most_one_open_tx [ModuleOp.sortDoSomeMutThing]
      ⟨BorrowState.mutBorrowed, 1⟩ (by decide)⟩

/-- C2: when the native begin-transaction fails, `SQLiteDbImpl::transaction`
panics (the source's `.expect("failed to begin transaction")`, modelled as
`none`) instead of returning a `DbError::Transaction` result. -/
theorem c2_begin_failure_panics :
    SQLiteDbImpl.transaction lockedBeginApi
      { params := { uri := ":memory:" }, conn := () } = none := rfl

/-- C3: `commit(self)` and `rollback(self)` consume the guard, so no finalize
step exists from a finalized state; from the open state each finalize reaches
its terminal state, and the sqlite finalizers return success or a
Commit/Rollback error. -/
theorem c3_finalize_consumes_guard (Conn Tx : Type) (api : NativeApi Conn Tx)
    (t : SQLiteDbTransactionImpl Tx) :
    (∀ a, txFinalStep TxStatus.committed a = none) ∧
    (∀ a, txFinalStep TxStatus.rolledBack a = none) ∧
    txFinalStep TxStatus.opened TxFinalize.commitAct = some TxStatus.committed ∧
    txFinalStep TxStatus.opened TxFinalize.rollbackAct = some TxStatus.rolledBack ∧
    (SQLiteDbTransactionImpl.commit api t = Except.ok () ∨
      ∃ m, SQLiteDbTransactionImpl.commit api t =
        Except.error (DbError.commit m)) ∧
    (SQLiteDbTransactionImpl.rollback api t = Except.ok () ∨
      ∃ m, SQLiteDbTransactionImpl.rollback api t =
        Except.error (DbError.rollback m)) := by
  refine ⟨fun a => by cases a <;> rfl, fun a => by cases a <;> rfl, rfl, rfl,
    ?_, ?_⟩
  · cases h : api.commitTx t.tx with
    | error e =>
        exact Or.inr ⟨e, by simp [SQLiteDbTransactionImpl.commit, h]⟩
    | ok u =>
        exact Or.inl (by cases u; simp [SQLiteDbTransactionImpl.commit, h])
  · cases h : api.rollbackTx t.tx with
    | error e =>
        exact Or.inr ⟨e, by simp [SQLiteDbTransactionImpl.rollback, h]⟩
    | ok u =>
        exact Or.inl (by cases u; simp [SQLiteDbTransactionImpl.rollback, h])

/-- C4 counterexample: the `DbError` taxonomy of `src/db.rs` contains no
Abandoned-transaction kind at all. -/
theorem c4_counterexample :
    (dbErrorKindNames.contains "Abandoned" ||
      dbErrorKindNames.contains "AbandonedTransactionError") = false := by
  decide

/-- C4 amended: every `DbError` value is one of the six source kinds
(Database, Commit, Rollback, Transaction, Connection, Other) — none of them
an abandoned-transaction kind — and `DbTransactionGuard` has no `Drop` impl,
so a guard discarded without finalize is dropped silently (the inner native
transaction rolls back on drop) rather than surfacing a reportable error. -/
theorem c4_amended_no_abandoned_kind :
    (∀ e : DbError, DbError.kindName e ∈ dbErrorKindNames) ∧
    dbErrorKindNames.length = 6 ∧
    dbTransactionGuardTraitImpls.contains "Drop" = false := by
  refine ⟨fun e => ?_, rfl, by decide⟩
  cases e <;> simp [DbError.kindName, dbErrorKindNames]

/-- C5: `SQLiteDbImpl::establish` either wraps the newly opened native
connection (together with the supplied params) in a fresh shared cell and
returns the handle pointing at that cell, or, when the native open fails,
returns a Connection-kind error carrying the native message and leaves the
heap untouched. -/
theorem c5_establish_ok_or_connection_error (Conn Tx : Type)
    (api : NativeApi Conn Tx) (params : SQLiteDbParams)
    (heap : RcHeap (SQLiteDbImpl Conn)) :
    (∀ c, api.openConn params.uri = Except.ok c →
        SQLiteDbImpl.establish api params heap =
          (Except.ok { db := { id := heap.cells.length } },
            { cells := heap.cells ++ [{ params := params, conn := c }] })) ∧
    (∀ e, api.openConn params.uri = Except.error e →
        SQLiteDbImpl.establish api params heap =
          (Except.error (DbError.connection e), heap)) := by
  constructor
  · intro c hc
    simp [SQLiteDbImpl.establish, hc, DbConnectionGuard.new]
  · intro e he
    simp [SQLiteDbImpl.establish, he]

/-- Witness for C5: a successful in-memory open yields the handle to the
fresh cell holding the connection, and a malformed path yields a Connection
error preserving the native message. -/
theorem c5_witness :
    SQLiteDbImpl.establish demoOkApi { uri := ":memory:" } { cells := [] } =
      (Except.ok { db := { id := 0 } },
        { cells := [{ params := { uri := ":memory:" }, conn := ":memory:" }] }) ∧
    SQLiteDbImpl.establish badPathApi { uri := "/no/such/dir/db" } { cells := [] } =
      (Except.error
          (DbError.connection
            ("unable to open database file: " ++ "/no/such/dir/db")),
        { cells := [] }) :=
  ⟨(c5_establish_ok_or_connection_error String Unit demoOkApi
      { uri := ":memory:" } { cells := [] }).1 ":memory:" rfl,
    (c5_establish_ok_or_connection_error String Unit badPathApi
      { uri := "/no/such/dir/db" } { cells := [] }).2
      ("unable to open database file: " ++ "/no/such/dir/db") rfl⟩

/-- C6 counterexample: the read-only `MarfTrieDbImpl::do_something_else_immut`
does open a transaction, and the mutating `MarfTrieDbImpl::do_something_mut`
opens none — the opposite of the claimed mutating/read-only split. -/
theorem c6_counterexample :
    (opEvents ModuleOp.marfDoSomethingElseImmut).contains MicroEvent.beginTx =
      true ∧
    (opEvents ModuleOp.marfDoSomethingMut).contains MicroEvent.beginTx =
      false := by
  decide

/-- C6 amended: every module operation either touches the connection not at
all or borrows it exclusively, opens one transaction, commits it, and
releases the borrow; in both cases the operation runs to completion and
returns the connection to the idle state, leaving no transaction open across
the call boundary. (`do_some_mut_thing` and `do_something_else_immut` are the
transactional pair; `do_some_immut_thing` and `do_something_mut` touch
nothing.) -/
theorem c6_amended_tx_discipline (op : ModuleOp) :
    runFrom initConn (opEvents op) = some initConn ∧
    (opEvents op = [] ∨ opEvents op = txCallEvents) := by
  cases op <;> exact ⟨rfl, by decide⟩

/-- C7: `from_db` on both modules returns a module whose stored connection is
`Rc::clone` of the handle's pointer — the exact same cell id — and leaves the
heap unchanged: no connection value is copied and no second physical
connection is opened. -/
theorem c7_from_db_shares_cell (DB : Type) (db : DbConnectionGuard DB)
    (heap : RcHeap DB) :
    SortitionDbImpl.from_db db heap = (Except.ok { conn := db.db }, heap) ∧
    MarfTrieDbImpl.from_db db heap = (Except.ok { conn := db.db }, heap) :=
  ⟨rfl, rfl⟩

/-- C8: while a mutable borrow of the shared connection is outstanding, a
further `borrow_mut` panics at once (`none`): it neither queues nor changes
state. -/
theorem c8_borrow_mut_fails_fast (s : ConnState)
    (h : s.borrow = BorrowState.mutBorrowed) :
    microStep s MicroEvent.borrowMutEv = none := by
  simp [microStep, borrowMut, h]

/-- Witness for C8: the borrowed state with no open transaction rejects a
second mutable borrow. -/
theorem c8_witness :
    ((⟨BorrowState.mutBorrowed, 0⟩ : ConnState).borrow =
      BorrowState.mutBorrowed) ∧
    microStep ⟨BorrowState.mutBorrowed, 0⟩ MicroEvent.borrowMutEv = none :=
  ⟨rfl, c8_borrow_mut_fails_fast ⟨BorrowState.mutBorrowed, 0⟩ rfl⟩

/-- C9: on a connection with no open transaction, a transaction can be begun,
mutated and rolled back, after which the committed data is unchanged and a
second transaction can be begun and committed, leaving exactly the second
mutation observable. -/
theorem c9_rollback_then_commit_roundtrip (c : NativeConnSt)
    (k1 : String) (v1 : Nat) (k2 : String) (v2 : Nat)
    (h : c.txOpen = false) :
    ∃ t1 c1 t2 c3,
      nativeBeginM c = Except.ok (t1, c1) ∧
      (nativeRollbackM (txWriteM t1 k1 v1) c1).data = c.data ∧
      nativeBeginM (nativeRollbackM (txWriteM t1 k1 v1) c1) =
        Except.ok (t2, c3) ∧
      (nativeCommitM (txWriteM t2 k2 v2) c3).data = c.data ++ [(k2, v2)] ∧
      (nativeCommitM (txWriteM t2 k2 v2) c3).txOpen = false := by
  refine ⟨{ pending := [] }, { data := c.data, txOpen := true },
    { pending := [] }, { data := c.data, txOpen := true }, ?_, rfl, ?_, ?_, rfl⟩
  · simp [nativeBeginM, h]
  · simp [nativeBeginM, nativeRollbackM]
  · simp [nativeCommitM, txWriteM]

/-- Witness for C9: the round trip on a one-row database, rolling back a
write of `x` and committing a write of `y`, observes only `y`. -/
theorem c9_witness :
    ∃ t1 c1 t2 c3,
      nativeBeginM { data := [("a", 1)], txOpen := false } =
        Except.ok (t1, c1) ∧
      (nativeRollbackM (txWriteM t1 "x" 7) c1).data = [("a", 1)] ∧
      nativeBeginM (nativeRollbackM (txWriteM t1 "x" 7) c1) =
        Except.ok (t2, c3) ∧
      (nativeCommitM (txWriteM t2 "y" 9) c3).data =
        [("a", 1)] ++ [("y", 9)] ∧
      (nativeCommitM (txWriteM t2 "y" 9) c3).txOpen = false :=
  c9_rollback_then_commit_roundtrip { data := [("a", 1)], txOpen := false }
    "x" 7 "y" 9 rfl

/-- C10: the transaction guard is behaviorally transparent — committing or
rolling back through the guard is exactly the wrapped transaction's
commit/rollback applied to the dereferenced guard, and dereferencing a
freshly wrapped transaction yields it unchanged. -/
theorem c10_guard_transparent (T : Type) (ops : TxOps T)
    (g : DbTransactionGuard T) (t : T) :
    DbTransactionGuard.commit ops g = specGuardCommit ops g ∧
    DbTransactionGuard.rollback ops g = specGuardRollback ops g ∧
    DbTransactionGuard.deref (DbTransactionGuard.new t) = t :=
  ⟨rfl, rfl, rfl⟩

end StacksDb
